import Mathlib

/-!
Shallow embedding of src/streamlit_app.py: a Streamlit presentation layer for a
compliance-violation screening tool. The controller logic of `main` (the body of the
`if run_btn:` branch, lines 75-121), the helpers `_normalize_product_type` and the
file-upload read (lines 63-69) are embedded as pure Lean functions over an explicit
model of Python values and of the external engine's behaviour. The engine itself
(rag_engine.ComplianceRAGEngine) and the st.cache_resource decorator are external to
src/ and are modelled only where a claim needs them.
-/

namespace ComplianceApp

/-- A Python value as it can occur in the result dict returned by engine.predict:
None, a bool, an int, or a string. -/
inductive PyVal where
  | none
  | bool (b : Bool)
  | int (n : Int)
  | str (s : String)
deriving DecidableEq

/-- Python truthiness: bool(x) for the modelled values. None is falsy, a bool is
itself, a number is truthy iff nonzero, a string is truthy iff non-empty. -/
def pyTruthy : PyVal → Bool
  | PyVal.none => false
  | PyVal.bool b => b
  | PyVal.int n => n != 0
  | PyVal.str s => s != ""

/-- Python str(x) for the modelled values. -/
def pyStr : PyVal → String
  | PyVal.none => "None"
  | PyVal.bool true => "True"
  | PyVal.bool false => "False"
  | PyVal.int n => toString n
  | PyVal.str s => s

/-- Python x or y: returns x when x is truthy, else y. -/
def pyOr (x y : PyVal) : PyVal :=
  if pyTruthy x then x else y

/-- Drop whitespace characters from both ends of a character list. -/
def stripChars (l : List Char) : List Char :=
  ((l.dropWhile Char.isWhitespace).reverse.dropWhile Char.isWhitespace).reverse

/-- Python s.strip() with no argument: remove leading and trailing whitespace. -/
def pyStrip (s : String) : String :=
  String.mk (stripChars s.data)

/-- Python (input_text or "") where input_text is a string or None: None and the
empty string give the default, any other string is returned unchanged. -/
def pyOrS : Option String → String → String
  | Option.none, d => d
  | Option.some s, d => if s = "" then d else s

/-- The result dict returned by engine.predict, as consumed by the controller via
result.get: each of the four keys may be absent (Option.none) or present with any
Python value, including None. -/
structure PyResult where
  violation : Option PyVal
  triggered_event : Option PyVal
  reason : Option PyVal
  raw_response : Option PyVal
deriving DecidableEq

/-- Python dict.get(key, default): the stored value when the key is present
(even when that value is None), else the default. -/
def dictGet (field : Option PyVal) (dflt : PyVal) : PyVal :=
  field.getD dflt

/-- Debug payload returned by engine.debug_retrieval: an opaque structured
key-to-value tree, modelled as an association list. -/
def DebugInfo : Type := List (String × String)

instance : DecidableEq DebugInfo := by
  unfold DebugInfo
  infer_instance

/-- Source line 24-27: _normalize_product_type maps the sentinel label to None and
every other label to itself. -/
def _normalize_product_type (pt_label : String) : Option String :=
  if pt_label = "全部检测" then Option.none
  else Option.some pt_label

/-- Source line 76: text = (input_text or "").strip(). The text_area value is
modelled as an Option String to cover the absent/None case. -/
def normalizedText (input_text : Option String) : String :=
  pyStrip (pyOrS input_text "")

/-- Behaviour of the external engine for one trigger, as the controller observes it:
construction (inside _get_engine), predict, and debug_retrieval may each either
return normally or raise an exception carrying a message. -/
structure EngineModel where
  construct : Except String Unit
  predict : String → Option String → Except String PyResult
  debug_retrieval : String → Except String DebugInfo

/-- One interaction with the engine, recorded in the order the controller issues it. -/
inductive EngineCall where
  | construct
  | predict (text : String) (product_type : Option String)
  | debug_retrieval (text : String)
deriving DecidableEq

/-- Status banner, source lines 93-96: st.error for violation, st.success otherwise. -/
inductive Banner where
  | violationStyle
  | compliantStyle
deriving DecidableEq

/-- Reason tab, source lines 103-108: a disabled text_area with the reason, or the
warning that no reason was returned. -/
inductive ReasonPanel where
  | textBox (s : String)
  | noReasonNotice
deriving DecidableEq

/-- Raw-output tab, source lines 110-114: st.code with the raw response verbatim, or
the info notice that no raw_response was returned. -/
inductive RawPanel where
  | codeBlock (s : String)
  | noRawNotice
deriving DecidableEq

/-- Debug tab, source lines 116-121: the st.json view of the debug payload, or the
static hint shown when the debug toggle is off. -/
inductive DebugPanel where
  | jsonView (d : DebugInfo)
  | staticHint
deriving DecidableEq

/-- Everything one detection trigger produces: the ordered engine interactions, the
empty-input warning if shown, each rendered fragment (none when control never
reached it), and the exception that escaped main uncaught, if any. -/
structure TriggerOutcome where
  calls : List EngineCall
  warning : Option String
  banner : Option Banner
  eventLabel : Option String
  reasonPanel : Option ReasonPanel
  rawPanel : Option RawPanel
  debugPanel : Option DebugPanel
  uncaught : Option String
deriving DecidableEq

/-- Source line 78: the empty-input warning text. -/
def emptyInputWarning : String := "请输入聊天内容后再检测。"

/-- Source line 87: violation = bool(result.get("violation")). -/
def displayViolation (r : PyResult) : Bool :=
  pyTruthy (dictGet r.violation PyVal.none)

/-- Source line 88: triggered_event = str(result.get("triggered_event", "无") or "无"). -/
def displayTriggeredEvent (r : PyResult) : String :=
  pyStr (pyOr (dictGet r.triggered_event (PyVal.str "无")) (PyVal.str "无"))

/-- Source line 89: reason = str(result.get("reason", "") or ""). -/
def displayReason (r : PyResult) : String :=
  pyStr (pyOr (dictGet r.reason (PyVal.str "")) (PyVal.str ""))

/-- Source line 90: raw_response = str(result.get("raw_response", "") or ""). -/
def displayRawResponse (r : PyResult) : String :=
  pyStr (pyOr (dictGet r.raw_response (PyVal.str "")) (PyVal.str ""))

/-- Source lines 93-96: st.error when violation is truthy, st.success otherwise. -/
def bannerOf (r : PyResult) : Banner :=
  if displayViolation r then Banner.violationStyle else Banner.compliantStyle

/-- Source lines 103-108: if reason.strip(): show the text; else the notice. -/
def reasonPanelOf (r : PyResult) : ReasonPanel :=
  if pyStrip (displayReason r) = "" then ReasonPanel.noReasonNotice
  else ReasonPanel.textBox (displayReason r)

/-- Source lines 110-114: if raw_response.strip(): show it verbatim; else the notice. -/
def rawPanelOf (r : PyResult) : RawPanel :=
  if pyStrip (displayRawResponse r) = "" then RawPanel.noRawNotice
  else RawPanel.codeBlock (displayRawResponse r)

/-- Outcome of a trigger that stopped before any rendering: the empty-input early
return, or an exception from _get_engine() or predict escaping main. -/
def abortedOutcome (calls : List EngineCall) (warning : Option String)
    (uncaught : Option String) : TriggerOutcome :=
  { calls := calls, warning := warning, banner := Option.none,
    eventLabel := Option.none, reasonPanel := Option.none, rawPanel := Option.none,
    debugPanel := Option.none, uncaught := uncaught }

/-- Outcome of a trigger whose predict call returned a result: banner, event label,
reason and raw panels are rendered from the result (lines 87-114); the debug tab and
a possibly escaping debug_retrieval exception are supplied by the caller. -/
def resultedOutcome (calls : List EngineCall) (r : PyResult)
    (debugPanel : Option DebugPanel) (uncaught : Option String) : TriggerOutcome :=
  { calls := calls, warning := Option.none, banner := Option.some (bannerOf r),
    eventLabel := Option.some (displayTriggeredEvent r),
    reasonPanel := Option.some (reasonPanelOf r),
    rawPanel := Option.some (rawPanelOf r),
    debugPanel := debugPanel, uncaught := uncaught }

/-- Source lines 75-121: the body of the run_btn branch of main. Strips the input
(line 76); on empty text warns and returns (lines 77-79); otherwise fetches the
engine (line 81, an exception escapes main uncaught), normalizes the product type
(line 82), calls predict (line 85, an exception escapes uncaught), renders banner,
event label, reason and raw tabs (lines 87-114), and in the debug tab either calls
debug_retrieval and renders its payload when the toggle is on (an exception there
escapes uncaught, after the result was already rendered) or shows the static hint
(lines 116-121). -/
def runTrigger (input_text : Option String) (product_type_label : String)
    (show_debug : Bool) (eng : EngineModel) : TriggerOutcome :=
  if normalizedText input_text = "" then
    abortedOutcome [] (Option.some emptyInputWarning) Option.none
  else
    match eng.construct with
    | Except.error e => abortedOutcome [EngineCall.construct] Option.none (Option.some e)
    | Except.ok _ =>
      match eng.predict (normalizedText input_text) (_normalize_product_type product_type_label) with
      | Except.error e =>
        abortedOutcome
          [EngineCall.construct,
           EngineCall.predict (normalizedText input_text) (_normalize_product_type product_type_label)]
          Option.none (Option.some e)
      | Except.ok result =>
        if show_debug then
          match eng.debug_retrieval (normalizedText input_text) with
          | Except.error e =>
            resultedOutcome
              [EngineCall.construct,
               EngineCall.predict (normalizedText input_text) (_normalize_product_type product_type_label),
               EngineCall.debug_retrieval (normalizedText input_text)]
              result Option.none (Option.some e)
          | Except.ok d =>
            resultedOutcome
              [EngineCall.construct,
               EngineCall.predict (normalizedText input_text) (_normalize_product_type product_type_label),
               EngineCall.debug_retrieval (normalizedText input_text)]
              result (Option.some (DebugPanel.jsonView d)) Option.none
        else
          resultedOutcome
            [EngineCall.construct,
             EngineCall.predict (normalizedText input_text) (_normalize_product_type product_type_label)]
            result (Option.some DebugPanel.staticHint) Option.none

/-- What the file-upload branch displays and yields, source lines 63-69. -/
structure FileReadOutcome where
  input_text : String
  successMsg : Option String
  errorMsg : Option String
  uncaught : Option String
deriving DecidableEq

/-- Source lines 64-69: input_text starts as "" (line 55); the read-and-decode is
attempted inside try/except; on success input_text is the decoded string and a
success message with the character count is shown; on any exception an error message
is shown, input_text stays "", and nothing propagates out of the except block. -/
def readUploadedFile (name : String) (readDecode : Except String String) : FileReadOutcome :=
  match readDecode with
  | Except.ok s =>
    { input_text := s,
      successMsg := Option.some ("已读取文件：" ++ name ++ "（" ++ toString s.length ++ " 字符）"),
      errorMsg := Option.none, uncaught := Option.none }
  | Except.error e =>
    { input_text := "",
      successMsg := Option.none,
      errorMsg := Option.some ("读取文件失败：" ++ e),
      uncaught := Option.none }

/-- State of the process-wide engine cache. Engine instances are identified by Nat
ids; nextId is the source of fresh ids, constructions counts how many times the
constructor has run in this process. -/
structure ProcState where
  cache : Option Nat
  nextId : Nat
  constructions : Nat
deriving DecidableEq

/-- Modelled from the spec: the st.cache_resource decorator on _get_engine (source
lines 15-21) and the ComplianceRAGEngine constructor live outside src/. Per the
spec, construction is lazy and performed at most once per process, the instance is
cached and reused, and the construction path is safely shared under concurrent
first-use (single construction, many readers); one cached access is therefore
modelled as an atomic step: return the cached instance if present, otherwise
construct a fresh instance, cache it, and count the construction. -/
def getEngineCached (s : ProcState) : Nat × ProcState :=
  match s.cache with
  | Option.some e => (e, s)
  | Option.none =>
    (s.nextId,
     { cache := Option.some s.nextId, nextId := s.nextId + 1,
       constructions := s.constructions + 1 })

/-- A sequence of n cached accesses (any interleaving of accesses from independent
sessions, each access atomic), returning the instances handed out and the final
process state. -/
def runAccesses : Nat → ProcState → List Nat × ProcState
  | 0, s => ([], s)
  | Nat.succ n, s =>
    let p := getEngineCached s
    let q := runAccesses n p.2
    (p.1 :: q.1, q.2)

/-- A freshly started process: nothing cached, no construction has run. -/
def freshProc : ProcState :=
  { cache := Option.none, nextId := 0, constructions := 0 }

/-- An engine whose construction and both calls succeed, predict returning the
fixed result r; used to instantiate theorems at concrete inputs. -/
def constEngine (r : PyResult) : EngineModel :=
  { construct := Except.ok (),
    predict := fun _ _ => Except.ok r,
    debug_retrieval := fun _ => Except.ok [] }

/-- The violation result of the spec's first scenario. -/
def scenarioResult : PyResult :=
  { violation := Option.some (PyVal.bool true),
    triggered_event := Option.some (PyVal.str "身份验证方式违规"),
    reason := Option.some (PyVal.str "仅凭手机号验证不满足双因子要求"),
    raw_response := Option.some (PyVal.str "model raw output") }

/-- A result dict carrying none of the four keys. -/
def emptyFieldsResult : PyResult :=
  { violation := Option.none, triggered_event := Option.none,
    reason := Option.none, raw_response := Option.none }

/-- A result whose raw_response is a single space: non-empty but whitespace-only. -/
def rawSpaceResult : PyResult :=
  { violation := Option.some (PyVal.bool false),
    triggered_event := Option.some (PyVal.str "event"),
    reason := Option.some (PyVal.str "fine"),
    raw_response := Option.some (PyVal.str " ") }

/-- A result whose violation field is the string "false" (truthy in Python). -/
def strFalseResult : PyResult :=
  { violation := Option.some (PyVal.str "false"), triggered_event := Option.none,
    reason := Option.none, raw_response := Option.none }

/-- An engine whose constructor raises. -/
def failingCtorEngine : EngineModel :=
  { construct := Except.error "ctor boom",
    predict := fun _ _ => Except.ok emptyFieldsResult,
    debug_retrieval := fun _ => Except.ok [] }

/-- An engine whose predict call raises. -/
def failingPredictEngine : EngineModel :=
  { construct := Except.ok (),
    predict := fun _ _ => Except.error "predict boom",
    debug_retrieval := fun _ => Except.ok [] }

/-- An engine whose debug_retrieval call raises, predict returning r. -/
def failingDebugEngine (r : PyResult) : EngineModel :=
  { construct := Except.ok (),
    predict := fun _ _ => Except.ok r,
    debug_retrieval := fun _ => Except.error "debug boom" }

/-! Helper lemmas about the display helpers and the shape of a trigger's call trace. -/

theorem displayReason_str (r : PyResult) (s : String)
    (h : r.reason = Option.some (PyVal.str s)) : displayReason r = s := by
  by_cases hs : s = "" <;>
    simp [displayReason, dictGet, h, pyOr, pyTruthy, pyStr, hs]

theorem displayRawResponse_str (r : PyResult) (s : String)
    (h : r.raw_response = Option.some (PyVal.str s)) : displayRawResponse r = s := by
  by_cases hs : s = "" <;>
    simp [displayRawResponse, dictGet, h, pyOr, pyTruthy, pyStr, hs]

theorem displayTriggeredEvent_str (r : PyResult) (s : String) (hs : s ≠ "")
    (h : r.triggered_event = Option.some (PyVal.str s)) :
    displayTriggeredEvent r = s := by
  simp [displayTriggeredEvent, dictGet, h, pyOr, pyTruthy, pyStr, hs]

theorem normalize_ne_sentinel (l : String) :
    _normalize_product_type l ≠ Option.some "全部检测" := by
  by_cases hl : l = "全部检测" <;> simp [_normalize_product_type, hl]

theorem call_shapes (input_text : Option String) (ptl : String) (dbg : Bool)
    (eng : EngineModel) :
    ∀ c ∈ (runTrigger input_text ptl dbg eng).calls,
      c = EngineCall.construct ∨
      c = EngineCall.predict (normalizedText input_text) (_normalize_product_type ptl) ∨
      (dbg = true ∧ c = EngineCall.debug_retrieval (normalizedText input_text)) := by
  unfold runTrigger
  split
  · simp [abortedOutcome]
  · split
    · simp [abortedOutcome]
    · split
      · simp [abortedOutcome]
      · split
        · split <;> (intro c hc; simp [resultedOutcome] at hc; tauto)
        · intro c hc
          simp [resultedOutcome] at hc
          tauto

theorem runTrigger_aborted_empty (input_text : Option String) (ptl : String)
    (dbg : Bool) (eng : EngineModel) (h : normalizedText input_text = "") :
    runTrigger input_text ptl dbg eng =
      abortedOutcome [] (Option.some emptyInputWarning) Option.none := by
  unfold runTrigger
  rw [if_pos h]

theorem runTrigger_ctor_error (input_text : Option String) (ptl : String)
    (dbg : Bool) (eng : EngineModel) (e : String)
    (hne : normalizedText input_text ≠ "") (hc : eng.construct = Except.error e) :
    runTrigger input_text ptl dbg eng =
      abortedOutcome [EngineCall.construct] Option.none (Option.some e) := by
  unfold runTrigger
  rw [if_neg hne, hc]

theorem runTrigger_predict_error (input_text : Option String) (ptl : String)
    (dbg : Bool) (eng : EngineModel) (e : String)
    (hne : normalizedText input_text ≠ "") (hc : eng.construct = Except.ok ())
    (hp : eng.predict (normalizedText input_text) (_normalize_product_type ptl) =
      Except.error e) :
    runTrigger input_text ptl dbg eng =
      abortedOutcome
        [EngineCall.construct,
         EngineCall.predict (normalizedText input_text) (_normalize_product_type ptl)]
        Option.none (Option.some e) := by
  unfold runTrigger
  rw [if_neg hne, hc, hp]

theorem runTrigger_predict_ok_nodebug (input_text : Option String) (ptl : String)
    (eng : EngineModel) (r : PyResult)
    (hne : normalizedText input_text ≠ "") (hc : eng.construct = Except.ok ())
    (hp : eng.predict (normalizedText input_text) (_normalize_product_type ptl) =
      Except.ok r) :
    runTrigger input_text ptl false eng =
      resultedOutcome
        [EngineCall.construct,
         EngineCall.predict (normalizedText input_text) (_normalize_product_type ptl)]
        r (Option.some DebugPanel.staticHint) Option.none := by
  unfold runTrigger
  rw [if_neg hne, hc, hp]
  rfl

theorem runTrigger_predict_ok_debug_ok (input_text : Option String) (ptl : String)
    (eng : EngineModel) (r : PyResult) (d : DebugInfo)
    (hne : normalizedText input_text ≠ "") (hc : eng.construct = Except.ok ())
    (hp : eng.predict (normalizedText input_text) (_normalize_product_type ptl) =
      Except.ok r)
    (hd : eng.debug_retrieval (normalizedText input_text) = Except.ok d) :
    runTrigger input_text ptl true eng =
      resultedOutcome
        [EngineCall.construct,
         EngineCall.predict (normalizedText input_text) (_normalize_product_type ptl),
         EngineCall.debug_retrieval (normalizedText input_text)]
        r (Option.some (DebugPanel.jsonView d)) Option.none := by
  unfold runTrigger
  rw [if_neg hne, hc, hp]
  simp only [if_true]
  rw [hd]

theorem runTrigger_predict_ok_debug_error (input_text : Option String) (ptl : String)
    (eng : EngineModel) (r : PyResult) (e : String)
    (hne : normalizedText input_text ≠ "") (hc : eng.construct = Except.ok ())
    (hp : eng.predict (normalizedText input_text) (_normalize_product_type ptl) =
      Except.ok r)
    (hd : eng.debug_retrieval (normalizedText input_text) = Except.error e) :
    runTrigger input_text ptl true eng =
      resultedOutcome
        [EngineCall.construct,
         EngineCall.predict (normalizedText input_text) (_normalize_product_type ptl),
         EngineCall.debug_retrieval (normalizedText input_text)]
        r Option.none (Option.some e) := by
  unfold runTrigger
  rw [if_neg hne, hc, hp]
  simp only [if_true]
  rw [hd]

theorem runTrigger_banner_predict_ok (input_text : Option String) (ptl : String)
    (dbg : Bool) (eng : EngineModel) (r : PyResult)
    (hne : normalizedText input_text ≠ "") (hc : eng.construct = Except.ok ())
    (hp : eng.predict (normalizedText input_text) (_normalize_product_type ptl) =
      Except.ok r) :
    (runTrigger input_text ptl dbg eng).banner = Option.some (bannerOf r) ∧
    (runTrigger input_text ptl dbg eng).eventLabel =
      Option.some (displayTriggeredEvent r) ∧
    (runTrigger input_text ptl dbg eng).reasonPanel =
      Option.some (reasonPanelOf r) ∧
    (runTrigger input_text ptl dbg eng).rawPanel = Option.some (rawPanelOf r) := by
  cases dbg with
  | false =>
    rw [runTrigger_predict_ok_nodebug input_text ptl eng r hne hc hp]
    exact ⟨rfl, rfl, rfl, rfl⟩
  | true =>
    cases hd : eng.debug_retrieval (normalizedText input_text) with
    | error e =>
      rw [runTrigger_predict_ok_debug_error input_text ptl eng r e hne hc hp hd]
      exact ⟨rfl, rfl, rfl, rfl⟩
    | ok d =>
      rw [runTrigger_predict_ok_debug_ok input_text ptl eng r d hne hc hp hd]
      exact ⟨rfl, rfl, rfl, rfl⟩

theorem predict_call_uses_normalized (input_text : Option String) (ptl : String)
    (dbg : Bool) (eng : EngineModel) (t : String) (pt : Option String)
    (h : EngineCall.predict t pt ∈ (runTrigger input_text ptl dbg eng).calls) :
    t = normalizedText input_text ∧ pt = _normalize_product_type ptl := by
  rcases call_shapes input_text ptl dbg eng _ h with h1 | h1 | ⟨_, h1⟩
  · exact absurd h1 (by simp)
  · have ht := congrArg (fun c => match c with
      | EngineCall.predict t _ => t
      | _ => "") h1
    have hpt := congrArg (fun c => match c with
      | EngineCall.predict _ pt => pt
      | _ => Option.none) h1
    exact ⟨ht, hpt⟩
  · exact absurd h1 (by simp)

theorem debug_call_shape (input_text : Option String) (ptl : String) (dbg : Bool)
    (eng : EngineModel) (t : String)
    (h : EngineCall.debug_retrieval t ∈ (runTrigger input_text ptl dbg eng).calls) :
    dbg = true ∧ t = normalizedText input_text := by
  rcases call_shapes input_text ptl dbg eng _ h with h1 | h1 | ⟨hd, h1⟩
  · exact absurd h1 (by simp)
  · exact absurd h1 (by simp)
  · refine ⟨hd, ?_⟩
    exact congrArg (fun c => match c with
      | EngineCall.debug_retrieval t => t
      | _ => "") h1

/-! The claims. -/

/-- Claim C1: for every input whose text is empty after trimming surrounding
whitespace (including the absent/None input case), triggering detection emits the
empty-input warning and returns without ever invoking the engine — no engine
construction, predict, or debug_retrieval call is issued, nothing is rendered, and
nothing escapes uncaught. -/
theorem c1_trimmed_empty_input_skips_engine (input_text : Option String)
    (product_type_label : String) (show_debug : Bool) (eng : EngineModel)
    (h : normalizedText input_text = "") :
    (runTrigger input_text product_type_label show_debug eng).calls = [] ∧
    (runTrigger input_text product_type_label show_debug eng).warning =
      Option.some emptyInputWarning ∧
    (runTrigger input_text product_type_label show_debug eng).banner = Option.none ∧
    (runTrigger input_text product_type_label show_debug eng).uncaught = Option.none := by
  rw [runTrigger_aborted_empty input_text product_type_label show_debug eng h]
  exact ⟨rfl, rfl, rfl, rfl⟩

theorem c1_witness :
    (normalizedText Option.none = "" ∧
      (runTrigger Option.none "全部检测" true failingPredictEngine).calls = []) ∧
    (normalizedText (Option.some "  \n ") = "" ∧
      (runTrigger (Option.some "  \n ") "1.0" false failingPredictEngine).warning =
        Option.some emptyInputWarning) :=
  ⟨⟨rfl, (c1_trimmed_empty_input_skips_engine Option.none "全部检测" true
      failingPredictEngine rfl).1⟩,
   ⟨by decide, (c1_trimmed_empty_input_skips_engine (Option.some "  \n ") "1.0" false
      failingPredictEngine (by decide)).2.1⟩⟩

/-- Claim C2: _normalize_product_type maps the sentinel label 全部检测 to None and
every other label to itself unchanged; consequently, for every detection trigger,
the product_type value passed to engine.predict is never the sentinel label. -/
theorem c2_sentinel_never_reaches_engine (l : String) (input_text : Option String)
    (show_debug : Bool) (eng : EngineModel) :
    _normalize_product_type "全部检测" = Option.none ∧
    (l ≠ "全部检测" → _normalize_product_type l = Option.some l) ∧
    (∀ t pt, EngineCall.predict t pt ∈ (runTrigger input_text l show_debug eng).calls →
      pt ≠ Option.some "全部检测") := by
  refine ⟨rfl, fun hl => by simp [_normalize_product_type, hl], fun t pt hmem => ?_⟩
  rw [(predict_call_uses_normalized input_text l show_debug eng t pt hmem).2]
  exact normalize_ne_sentinel l

theorem c2_witness :
    _normalize_product_type "全部检测" = Option.none ∧
    ((("1.0" : String) ≠ "全部检测") ∧ _normalize_product_type "1.0" = Option.some "1.0") ∧
    (∀ t pt,
      EngineCall.predict t pt ∈
        (runTrigger (Option.some "hi") "全部检测" false (constEngine scenarioResult)).calls →
      pt ≠ Option.some "全部检测") :=
  ⟨(c2_sentinel_never_reaches_engine "全部检测" (Option.some "hi") false
      (constEngine scenarioResult)).1,
   ⟨by decide, (c2_sentinel_never_reaches_engine "1.0" (Option.some "hi") false
      (constEngine scenarioResult)).2.1 (by decide)⟩,
   (c2_sentinel_never_reaches_engine "全部检测" (Option.some "hi") false
      (constEngine scenarioResult)).2.2⟩

/-- Claim C3: for every engine result whose violation field is the boolean b, the
rendered status banner is the violation styling exactly when b is true and the
compliant styling exactly when b is false; the two stylings are distinct, so the two
renderings are exhaustive and mutually exclusive over the boolean domain. -/
theorem c3_banner_matches_violation_bool (input_text : Option String) (ptl : String)
    (dbg : Bool) (eng : EngineModel) (r : PyResult) (b : Bool)
    (hne : normalizedText input_text ≠ "") (hc : eng.construct = Except.ok ())
    (hp : eng.predict (normalizedText input_text) (_normalize_product_type ptl) =
      Except.ok r)
    (hv : r.violation = Option.some (PyVal.bool b)) :
    (runTrigger input_text ptl dbg eng).banner =
      Option.some (if b then Banner.violationStyle else Banner.compliantStyle) ∧
    Banner.violationStyle ≠ Banner.compliantStyle := by
  refine ⟨?_, by decide⟩
  rw [(runTrigger_banner_predict_ok input_text ptl dbg eng r hne hc hp).1]
  simp [bannerOf, displayViolation, dictGet, hv, pyTruthy]

theorem c3_witness :
    (normalizedText (Option.some "你就用手机号短信验证就可以了") ≠ "" ∧
      (constEngine scenarioResult).construct = Except.ok () ∧
      (constEngine scenarioResult).predict
        (normalizedText (Option.some "你就用手机号短信验证就可以了"))
        (_normalize_product_type "全部检测") = Except.ok scenarioResult ∧
      scenarioResult.violation = Option.some (PyVal.bool true)) ∧
    (runTrigger (Option.some "你就用手机号短信验证就可以了") "全部检测" false
        (constEngine scenarioResult)).banner =
      Option.some Banner.violationStyle :=
  ⟨⟨by decide, rfl, rfl, rfl⟩,
   (c3_banner_matches_violation_bool (Option.some "你就用手机号短信验证就可以了")
      "全部检测" false (constEngine scenarioResult) scenarioResult true
      (by decide) rfl rfl rfl).1⟩

/-- Claim C4 counterexample: a predict exception is not converted to a user-visible
message by the controller — it escapes main uncaught with nothing shown; and a
debug_retrieval exception escapes uncaught after the result banner has already been
rendered, so an error state coexists with a rendered result. -/
theorem c4_counterexample :
    ((runTrigger (Option.some "hi") "1.0" false failingPredictEngine).uncaught =
        Option.some "predict boom" ∧
      (runTrigger (Option.some "hi") "1.0" false failingPredictEngine).warning =
        Option.none ∧
      (runTrigger (Option.some "hi") "1.0" false failingPredictEngine).banner =
        Option.none) ∧
    ((runTrigger (Option.some "hi") "1.0" true
          (failingDebugEngine scenarioResult)).uncaught = Option.some "debug boom" ∧
      (runTrigger (Option.some "hi") "1.0" true
          (failingDebugEngine scenarioResult)).banner =
        Option.some Banner.violationStyle) :=
  ⟨⟨rfl, rfl, rfl⟩, ⟨rfl, rfl⟩⟩

/-- Claim C4 amended: empty-input and file-decode errors are caught at the boundary
nearest their origin and converted to user-visible messages, never propagating out
of the controller; engine construction, predict and debug_retrieval errors are not
caught by the controller and escape it uncaught (surfaced only by the surrounding
framework); when construction or predict fails no result fragment is rendered, but
a debug_retrieval failure escapes after the result has already been rendered. -/
theorem c4_amended_error_boundaries (name e : String) (input_text : Option String)
    (ptl : String) (dbg : Bool) (eng : EngineModel) (r : PyResult)
    (hne : normalizedText input_text ≠ "") :
    ((readUploadedFile name (Except.error e)).errorMsg =
        Option.some ("读取文件失败：" ++ e) ∧
      (readUploadedFile name (Except.error e)).uncaught = Option.none ∧
      (readUploadedFile name (Except.error e)).input_text = "") ∧
    (∀ inp, normalizedText inp = "" →
      (runTrigger inp ptl dbg eng).warning = Option.some emptyInputWarning ∧
      (runTrigger inp ptl dbg eng).uncaught = Option.none) ∧
    (eng.construct = Except.error e →
      (runTrigger input_text ptl dbg eng).uncaught = Option.some e ∧
      (runTrigger input_text ptl dbg eng).banner = Option.none ∧
      (runTrigger input_text ptl dbg eng).warning = Option.none) ∧
    (eng.construct = Except.ok () →
      eng.predict (normalizedText input_text) (_normalize_product_type ptl) =
        Except.error e →
      (runTrigger input_text ptl dbg eng).uncaught = Option.some e ∧
      (runTrigger input_text ptl dbg eng).banner = Option.none ∧
      (runTrigger input_text ptl dbg eng).warning = Option.none) ∧
    (eng.construct = Except.ok () →
      eng.predict (normalizedText input_text) (_normalize_product_type ptl) =
        Except.ok r →
      eng.debug_retrieval (normalizedText input_text) = Except.error e →
      (runTrigger input_text ptl true eng).uncaught = Option.some e ∧
      (runTrigger input_text ptl true eng).banner = Option.some (bannerOf r)) := by
  refine ⟨⟨rfl, rfl, rfl⟩, fun inp h => ?_, fun hc => ?_, fun hc hp => ?_,
    fun hc hp hd => ?_⟩
  · rw [runTrigger_aborted_empty inp ptl dbg eng h]
    exact ⟨rfl, rfl⟩
  · rw [runTrigger_ctor_error input_text ptl dbg eng e hne hc]
    exact ⟨rfl, rfl, rfl⟩
  · rw [runTrigger_predict_error input_text ptl dbg eng e hne hc hp]
    exact ⟨rfl, rfl, rfl⟩
  · rw [runTrigger_predict_ok_debug_error input_text ptl eng r e hne hc hp hd]
    exact ⟨rfl, rfl⟩

theorem c4_amended_witness :
    normalizedText (Option.some "hi") ≠ "" ∧
    (runTrigger (Option.some "hi") "1.0" false failingCtorEngine).uncaught =
      Option.some "ctor boom" ∧
    (runTrigger (Option.some "hi") "1.0" false failingCtorEngine).banner =
      Option.none :=
  ⟨by decide,
   ((c4_amended_error_boundaries "a.txt" "ctor boom" (Option.some "hi") "1.0" false
        failingCtorEngine emptyFieldsResult (by decide)).2.2.1 rfl).1,
   ((c4_amended_error_boundaries "a.txt" "ctor boom" (Option.some "hi") "1.0" false
        failingCtorEngine emptyFieldsResult (by decide)).2.2.1 rfl).2.1⟩

/-- Claim C5 counterexample: with raw_response the single-space string, which is
non-empty, the raw-output panel shows the no-raw-response notice instead of the
value verbatim — refuting the claim that only an empty raw_response yields the
notice. -/
theorem c5_counterexample :
    displayRawResponse rawSpaceResult = " " ∧ (" " : String) ≠ "" ∧
    (runTrigger (Option.some "hi") "1.0" false (constEngine rawSpaceResult)).rawPanel =
      Option.some RawPanel.noRawNotice ∧
    (runTrigger (Option.some "hi") "1.0" false (constEngine rawSpaceResult)).rawPanel ≠
      Option.some (RawPanel.codeBlock " ") :=
  ⟨rfl, by decide, rfl, by decide⟩

/-- Claim C5 amended: for every engine result with string-valued reason and
raw_response fields, the reason panel shows the no-reason notice when the reason is
empty or whitespace-only after trimming and otherwise the reason text exactly; the
raw-output panel shows the no-raw-response notice when raw_response is empty or
whitespace-only after trimming, and otherwise raw_response verbatim. -/
theorem c5_amended_reason_raw_panels (input_text : Option String) (ptl : String)
    (dbg : Bool) (eng : EngineModel) (r : PyResult) (s w : String)
    (hne : normalizedText input_text ≠ "") (hc : eng.construct = Except.ok ())
    (hp : eng.predict (normalizedText input_text) (_normalize_product_type ptl) =
      Except.ok r)
    (hr : r.reason = Option.some (PyVal.str s))
    (hw : r.raw_response = Option.some (PyVal.str w)) :
    (runTrigger input_text ptl dbg eng).reasonPanel =
      Option.some (if pyStrip s = "" then ReasonPanel.noReasonNotice
        else ReasonPanel.textBox s) ∧
    (runTrigger input_text ptl dbg eng).rawPanel =
      Option.some (if pyStrip w = "" then RawPanel.noRawNotice
        else RawPanel.codeBlock w) := by
  have h := runTrigger_banner_predict_ok input_text ptl dbg eng r hne hc hp
  rw [h.2.2.1, h.2.2.2]
  rw [reasonPanelOf, rawPanelOf, displayReason_str r s hr, displayRawResponse_str r w hw]
  exact ⟨rfl, rfl⟩

theorem c5_amended_witness :
    (normalizedText (Option.some "hi") ≠ "" ∧
      scenarioResult.reason = Option.some (PyVal.str "仅凭手机号验证不满足双因子要求") ∧
      scenarioResult.raw_response = Option.some (PyVal.str "model raw output")) ∧
    (runTrigger (Option.some "hi") "2.0" false (constEngine scenarioResult)).reasonPanel =
      Option.some (ReasonPanel.textBox "仅凭手机号验证不满足双因子要求") ∧
    (runTrigger (Option.some "hi") "2.0" false (constEngine scenarioResult)).rawPanel =
      Option.some (RawPanel.codeBlock "model raw output") := by
  have h := c5_amended_reason_raw_panels (Option.some "hi") "2.0" false
    (constEngine scenarioResult) scenarioResult
    "仅凭手机号验证不满足双因子要求" "model raw output"
    (by decide) rfl rfl rfl rfl
  exact ⟨⟨by decide, rfl, rfl⟩, by simpa using h.1, by simpa using h.2⟩

/-- Claim C6: for every engine result, the rendered triggered-event label equals the
result's triggered_event value, except that when that value is absent, None or the
empty string, the label is the literal none marker 无. -/
theorem c6_triggered_event_label (input_text : Option String) (ptl : String)
    (dbg : Bool) (eng : EngineModel) (r : PyResult)
    (hne : normalizedText input_text ≠ "") (hc : eng.construct = Except.ok ())
    (hp : eng.predict (normalizedText input_text) (_normalize_product_type ptl) =
      Except.ok r) :
    ((r.triggered_event = Option.none ∨ r.triggered_event = Option.some PyVal.none ∨
        r.triggered_event = Option.some (PyVal.str "") →
      (runTrigger input_text ptl dbg eng).eventLabel = Option.some "无") ∧
     (∀ s, s ≠ "" → r.triggered_event = Option.some (PyVal.str s) →
      (runTrigger input_text ptl dbg eng).eventLabel = Option.some s)) := by
  have h := (runTrigger_banner_predict_ok input_text ptl dbg eng r hne hc hp).2.1
  constructor
  · intro hcases
    rw [h]
    rcases hcases with h1 | h1 | h1 <;>
      simp [displayTriggeredEvent, dictGet, h1, pyOr, pyTruthy, pyStr]
  · intro s hs h1
    rw [h, displayTriggeredEvent_str r s hs h1]

theorem c6_witness :
    (normalizedText (Option.some "hi") ≠ "" ∧
      emptyFieldsResult.triggered_event = Option.none ∧
      scenarioResult.triggered_event = Option.some (PyVal.str "身份验证方式违规") ∧
      ("身份验证方式违规" : String) ≠ "") ∧
    (runTrigger (Option.some "hi") "1.0" false (constEngine emptyFieldsResult)).eventLabel =
      Option.some "无" ∧
    (runTrigger (Option.some "hi") "1.0" false (constEngine scenarioResult)).eventLabel =
      Option.some "身份验证方式违规" :=
  ⟨⟨by decide, rfl, rfl, by decide⟩,
   (c6_triggered_event_label (Option.some "hi") "1.0" false
      (constEngine emptyFieldsResult) emptyFieldsResult (by decide) rfl rfl).1
      (Or.inl rfl),
   (c6_triggered_event_label (Option.some "hi") "1.0" false
      (constEngine scenarioResult) scenarioResult (by decide) rfl rfl).2
      "身份验证方式违规" (by decide) rfl⟩

/-- Claim C7: within a single detection trigger that produced a result,
debug_retrieval is invoked exactly when the debug toggle was on at trigger time
(otherwise the static hint is shown); when invoked it is issued only after predict,
and both calls receive the identical normalized input text of the trigger.
Moreover, across all triggers, any debug_retrieval call implies the toggle was on
and uses the trigger's normalized text. -/
theorem c7_debug_toggle_and_ordering (input_text : Option String) (ptl : String)
    (dbg : Bool) (eng : EngineModel) (r : PyResult)
    (hne : normalizedText input_text ≠ "") (hc : eng.construct = Except.ok ())
    (hp : eng.predict (normalizedText input_text) (_normalize_product_type ptl) =
      Except.ok r) :
    (runTrigger input_text ptl dbg eng).calls =
      (if dbg then
        [EngineCall.construct,
         EngineCall.predict (normalizedText input_text) (_normalize_product_type ptl),
         EngineCall.debug_retrieval (normalizedText input_text)]
       else
        [EngineCall.construct,
         EngineCall.predict (normalizedText input_text)
           (_normalize_product_type ptl)]) ∧
    ((runTrigger input_text ptl dbg eng).debugPanel = Option.some DebugPanel.staticHint ↔
      dbg = false) ∧
    (∀ inp l d e t, EngineCall.debug_retrieval t ∈ (runTrigger inp l d e).calls →
      d = true ∧ t = normalizedText inp) := by
  refine ⟨?_, ?_, fun inp l d e t h => debug_call_shape inp l d e t h⟩
  · cases dbg with
    | false => rw [runTrigger_predict_ok_nodebug input_text ptl eng r hne hc hp]; rfl
    | true =>
      cases hd : eng.debug_retrieval (normalizedText input_text) with
      | error e =>
        rw [runTrigger_predict_ok_debug_error input_text ptl eng r e hne hc hp hd]; rfl
      | ok d =>
        rw [runTrigger_predict_ok_debug_ok input_text ptl eng r d hne hc hp hd]; rfl
  · cases dbg with
    | false =>
      rw [runTrigger_predict_ok_nodebug input_text ptl eng r hne hc hp]
      simp [resultedOutcome]
    | true =>
      cases hd : eng.debug_retrieval (normalizedText input_text) with
      | error e =>
        rw [runTrigger_predict_ok_debug_error input_text ptl eng r e hne hc hp hd]
        simp [resultedOutcome]
      | ok d =>
        rw [runTrigger_predict_ok_debug_ok input_text ptl eng r d hne hc hp hd]
        simp [resultedOutcome]

theorem c7_witness :
    (normalizedText (Option.some " hi ") ≠ "") ∧
    (runTrigger (Option.some " hi ") "1.0" true (constEngine scenarioResult)).calls =
      [EngineCall.construct, EngineCall.predict "hi" (Option.some "1.0"),
       EngineCall.debug_retrieval "hi"] ∧
    (runTrigger (Option.some " hi ") "1.0" false (constEngine scenarioResult)).calls =
      [EngineCall.construct, EngineCall.predict "hi" (Option.some "1.0")] ∧
    (runTrigger (Option.some " hi ") "1.0" false (constEngine scenarioResult)).debugPanel =
      Option.some DebugPanel.staticHint := by
  have ht := (c7_debug_toggle_and_ordering (Option.some " hi ") "1.0" true
    (constEngine scenarioResult) scenarioResult (by decide) rfl rfl).1
  have hf := c7_debug_toggle_and_ordering (Option.some " hi ") "1.0" false
    (constEngine scenarioResult) scenarioResult (by decide) rfl rfl
  refine ⟨by decide, ?_, ?_, hf.2.1.mpr rfl⟩
  · rw [ht]; rfl
  · rw [hf.1]; rfl

theorem runAccesses_cached (n : Nat) (s : ProcState) (e : Nat)
    (h : s.cache = Option.some e) : runAccesses n s = (List.replicate n e, s) := by
  induction n with
  | zero => rfl
  | succ m ih =>
    show (let p := getEngineCached s
          let q := runAccesses m p.2
          ((p.1 :: q.1, q.2) : List Nat × ProcState)) = _
    rw [show getEngineCached s = (e, s) by rw [getEngineCached, h]]
    simp only [ih, List.replicate]

/-- Claim C8: the engine instance is a lazily constructed process-wide singleton:
over any number of cached accesses in a fresh process (the accesses being any
interleaving, from independent sessions, of atomic cache lookups), the constructor
runs at most once, it does not run at all before the first access, it has run
exactly once after the first access, and every access hands back the same
instance. -/
theorem c8_engine_singleton (n : Nat) (hn : 1 ≤ n) :
    (∀ m, (runAccesses m freshProc).2.constructions ≤ 1) ∧
    (runAccesses 0 freshProc).2.constructions = 0 ∧
    (runAccesses n freshProc).2.constructions = 1 ∧
    (runAccesses n freshProc).1 = List.replicate n 0 := by
  have hstep : ∀ m, runAccesses (m + 1) freshProc =
      (0 :: List.replicate m 0,
       { cache := Option.some 0, nextId := 1, constructions := 1 }) := by
    intro m
    show (let p := getEngineCached freshProc
          let q := runAccesses m p.2
          ((p.1 :: q.1, q.2) : List Nat × ProcState)) = _
    rw [show getEngineCached freshProc =
        (0, { cache := Option.some 0, nextId := 1, constructions := 1 }) from rfl]
    show ((0 : Nat) ::
        (runAccesses m { cache := Option.some 0, nextId := 1, constructions := 1 }).1,
        (runAccesses m { cache := Option.some 0, nextId := 1, constructions := 1 }).2) = _
    rw [runAccesses_cached m
      { cache := Option.some 0, nextId := 1, constructions := 1 } 0 rfl]
  refine ⟨fun m => ?_, rfl, ?_, ?_⟩
  · cases m with
    | zero => exact Nat.zero_le 1
    | succ k => rw [hstep k]
  · cases n with
    | zero => exact absurd hn (by decide)
    | succ k => rw [hstep k]
  · cases n with
    | zero => exact absurd hn (by decide)
    | succ k => rw [hstep k]; rfl

theorem c8_witness :
    1 ≤ 3 ∧ (runAccesses 3 freshProc).2.constructions = 1 ∧
    (runAccesses 3 freshProc).1 = List.replicate 3 0 :=
  ⟨by decide, (c8_engine_singleton 3 (by decide)).2.2.1,
   (c8_engine_singleton 3 (by decide)).2.2.2⟩

/-- Claim C9: rendering tolerates a result dict missing any of the four keys or
carrying None in them — a missing or None violation renders the compliant banner, a
missing or None triggered_event renders the 无 placeholder, a missing or None
reason renders the no-reason notice, a missing or None raw_response renders the
no-raw-response notice, and the trigger completes with nothing escaping uncaught. -/
theorem c9_tolerates_missing_or_none_fields (input_text : Option String)
    (ptl : String) (eng : EngineModel) (r : PyResult)
    (hne : normalizedText input_text ≠ "") (hc : eng.construct = Except.ok ())
    (hp : eng.predict (normalizedText input_text) (_normalize_product_type ptl) =
      Except.ok r) :
    ((r.violation = Option.none ∨ r.violation = Option.some PyVal.none) →
      (runTrigger input_text ptl false eng).banner =
        Option.some Banner.compliantStyle) ∧
    ((r.triggered_event = Option.none ∨ r.triggered_event = Option.some PyVal.none) →
      (runTrigger input_text ptl false eng).eventLabel = Option.some "无") ∧
    ((r.reason = Option.none ∨ r.reason = Option.some PyVal.none) →
      (runTrigger input_text ptl false eng).reasonPanel =
        Option.some ReasonPanel.noReasonNotice) ∧
    ((r.raw_response = Option.none ∨ r.raw_response = Option.some PyVal.none) →
      (runTrigger input_text ptl false eng).rawPanel =
        Option.some RawPanel.noRawNotice) ∧
    (runTrigger input_text ptl false eng).uncaught = Option.none := by
  have h := runTrigger_banner_predict_ok input_text ptl false eng r hne hc hp
  refine ⟨fun h1 => ?_, fun h1 => ?_, fun h1 => ?_, fun h1 => ?_, ?_⟩
  · rw [h.1]
    rcases h1 with h1 | h1 <;>
      simp [bannerOf, displayViolation, dictGet, h1, pyTruthy]
  · rw [h.2.1]
    rcases h1 with h1 | h1 <;>
      simp [displayTriggeredEvent, dictGet, h1, pyOr, pyTruthy, pyStr]
  · rw [h.2.2.1]
    rcases h1 with h1 | h1 <;>
      simp [reasonPanelOf, displayReason, dictGet, h1, pyOr, pyTruthy, pyStr, pyStrip,
        stripChars]
  · rw [h.2.2.2]
    rcases h1 with h1 | h1 <;>
      simp [rawPanelOf, displayRawResponse, dictGet, h1, pyOr, pyTruthy, pyStr, pyStrip,
        stripChars]
  · rw [runTrigger_predict_ok_nodebug input_text ptl eng r hne hc hp]
    rfl

theorem c9_witness :
    (normalizedText (Option.some "hi") ≠ "" ∧
      emptyFieldsResult.violation = Option.none ∧
      emptyFieldsResult.triggered_event = Option.none ∧
      emptyFieldsResult.reason = Option.none ∧
      emptyFieldsResult.raw_response = Option.none) ∧
    (runTrigger (Option.some "hi") "1.0" false (constEngine emptyFieldsResult)).banner =
      Option.some Banner.compliantStyle ∧
    (runTrigger (Option.some "hi") "1.0" false (constEngine emptyFieldsResult)).eventLabel =
      Option.some "无" ∧
    (runTrigger (Option.some "hi") "1.0" false (constEngine emptyFieldsResult)).reasonPanel =
      Option.some ReasonPanel.noReasonNotice ∧
    (runTrigger (Option.some "hi") "1.0" false (constEngine emptyFieldsResult)).rawPanel =
      Option.some RawPanel.noRawNotice ∧
    (runTrigger (Option.some "hi") "1.0" false (constEngine emptyFieldsResult)).uncaught =
      Option.none := by
  have h := c9_tolerates_missing_or_none_fields (Option.some "hi") "1.0"
    (constEngine emptyFieldsResult) emptyFieldsResult (by decide) rfl rfl
  exact ⟨⟨by decide, rfl, rfl, rfl, rfl⟩, h.1 (Or.inl rfl), h.2.1 (Or.inl rfl),
    h.2.2.1 (Or.inl rfl), h.2.2.2.1 (Or.inl rfl), h.2.2.2.2⟩

/-- Claim C10: the violation judgment is decided by Python truthiness, not by a
strict boolean — the banner is the violation styling exactly when the violation
value (defaulting to None when the key is absent) is truthy; in particular the
non-empty string "false" and a non-zero number are truthy, while False, None, 0,
the empty string, and an absent key are falsy. -/
theorem c10_violation_truthiness (input_text : Option String) (ptl : String)
    (dbg : Bool) (eng : EngineModel) (r : PyResult)
    (hne : normalizedText input_text ≠ "") (hc : eng.construct = Except.ok ())
    (hp : eng.predict (normalizedText input_text) (_normalize_product_type ptl) =
      Except.ok r) :
    (runTrigger input_text ptl dbg eng).banner =
      Option.some (if pyTruthy (dictGet r.violation PyVal.none)
        then Banner.violationStyle else Banner.compliantStyle) ∧
    pyTruthy (PyVal.str "false") = true ∧
    pyTruthy (PyVal.int 2) = true ∧
    pyTruthy (PyVal.bool false) = false ∧
    pyTruthy PyVal.none = false ∧
    pyTruthy (PyVal.int 0) = false ∧
    pyTruthy (PyVal.str "") = false ∧
    dictGet Option.none PyVal.none = PyVal.none := by
  refine ⟨?_, by decide, by decide, rfl, rfl, by decide, by decide, rfl⟩
  rw [(runTrigger_banner_predict_ok input_text ptl dbg eng r hne hc hp).1]
  rfl

theorem c10_witness :
    (normalizedText (Option.some "hi") ≠ "" ∧
      strFalseResult.violation = Option.some (PyVal.str "false")) ∧
    (runTrigger (Option.some "hi") "1.0" false (constEngine strFalseResult)).banner =
      Option.some Banner.violationStyle := by
  have h := (c10_violation_truthiness (Option.some "hi") "1.0" false
    (constEngine strFalseResult) strFalseResult (by decide) rfl rfl).1
  exact ⟨⟨by decide, rfl⟩, by simpa using h⟩

end ComplianceApp
